import Mathlib

/-!
# Verification of the token-lifecycle core of `service-1-user`

Shallow embedding of the token subsystem:

* `TokenManager` (internal/auth, the kind-aware manager with a Redis-backed
  blacklist): `GenerateToken`, `GenerateRefreshToken`, `ValidateToken`,
  `ValidateRefreshToken`, `InvalidateToken`.
* The Redis revocation store is modelled as an association list from keys to
  absolute expiry instants; a key is visible (`redisLive`) while the current
  instant is strictly below its expiry, matching Redis TTL auto-expiry.
  Fault injection booleans model a failing store read (any error other than
  `redis.Nil`) and a failing store write.
* JWT signing is modelled symbolically: a token is either a well-formed claim
  set signed with some key, or a malformed string.  `jwt.ParseWithClaims`
  verifies the signature and then validates the `exp` registered claim
  (golang-jwt v5 order: signature before claims validation); `ParseUnverified`
  decodes claims without any signature check.
* The kind-less `TokenManager` of `internal/auth/jwt.go` is embedded in the
  `Kindless` namespace.
* The `Login` handler of `internal/server/user_server.go` is embedded with the
  credential lookup and the bcrypt comparison as explicit inputs.

Time instants and durations are `Int` (Unix seconds).
-/

/-- Token-kind constant `TokenTypeAccess = "access"`. -/
def TokenTypeAccess : String := "access"

/-- Token-kind constant `TokenTypeRefresh = "refresh"`. -/
def TokenTypeRefresh : String := "refresh"

/-- The claim set carried by a token: `UserID`, `Email`, `TokenType`, and the
registered claims `ExpiresAt` and `IssuedAt`. -/
structure Claims where
  userID : Int
  email : String
  tokenType : String
  expiresAt : Int
  issuedAt : Int
deriving Repr, DecidableEq

/-- A token string: either a structurally well-formed JWT carrying a claim set
and signed with some key, or a malformed string.  Two distinct values
correspond to distinct raw strings (HS256 signing is deterministic, so a
token string is determined by its claims and key). -/
inductive Token where
  | signed (claims : Claims) (key : String)
  | malformed (raw : String)
deriving Repr, DecidableEq

/-- The error outcomes of the token subsystem, one constructor per distinct
`errors.New`/`fmt.Errorf` site (plus the orchestrator-level umbrella errors). -/
inductive TMError where
  | tokenRevoked        -- "token has been revoked"
  | redisError          -- "redis error: %w"  (store read failed, not redis.Nil)
  | malformedToken      -- jwt parse: structure cannot be decoded
  | signatureInvalid    -- jwt parse: signature does not match
  | tokenExpired        -- jwt claims validation: exp <= now
  | typeMismatchAccess  -- "invalid token type: expected access token"
  | typeMismatchRefresh -- "invalid token type: expected refresh token"
  | invalidClaims       -- "invalid token claims"
  | redisWriteError     -- redis Set failed in InvalidateToken
  | invalidOrExpired    -- RefreshToken flow: umbrella for any validation failure
  | refreshRevokeFailed -- RefreshToken flow: revocation of the old token failed
  | logoutFailed        -- Logout flow: "failed to logout"
deriving Repr, DecidableEq

deriving instance DecidableEq for Except

/-- A revocation-store key: the literal tag `"blacklist:"` concatenated with
the raw token string (`key := "blacklist:" + tokenString` in the source). -/
structure RedisKey where
  tag : String
  tok : Token
deriving Repr, DecidableEq

/-- `blacklist:` + raw token string. -/
def blacklistKey (tok : Token) : RedisKey := ⟨"blacklist:", tok⟩

/-- The revocation store: entries pairing a key with the absolute instant at
which Redis auto-expires it (write time + TTL). -/
abbrev Store := List (RedisKey × Int)

/-- A key is live when some entry for it has not yet auto-expired. -/
def redisLive (now : Int) (key : RedisKey) : Store → Bool
  | [] => false
  | e :: rest => (e.1 == key && decide (now < e.2)) || redisLive now key rest

/-- Outcome of `redisClient.Get`: value found, `redis.Nil` (key absent or
TTL elapsed), or any other error. -/
inductive GetResult where
  | found
  | errNil
  | errOther
deriving Repr, DecidableEq

/-- `redisClient.Get(ctx, key)`: with a healthy store the key is found exactly
when a live entry exists; `fault` injects a non-`redis.Nil` read error. -/
def redisGet (fault : Bool) (st : Store) (now : Int) (key : RedisKey) : GetResult :=
  if fault then .errOther
  else if redisLive now key st then .found
  else .errNil

/-- `redisClient.Set(ctx, key, "revoked", ttl)`: records the key with absolute
expiry `now + ttl`. -/
def redisSet (st : Store) (now : Int) (key : RedisKey) (ttl : Int) : Store :=
  (key, now + ttl) :: st

/-- `jwt.ParseWithClaims` with the HMAC key callback: rejects malformed
structure, then verifies the signature against the manager's secret, then
validates the `exp` registered claim (token expired when `expiresAt ≤ now`). -/
def parseWithClaims (secret : String) (now : Int) : Token → Except TMError Claims
  | .malformed _ => .error .malformedToken
  | .signed c key =>
    if key ≠ secret then .error .signatureInvalid
    else if c.expiresAt ≤ now then .error .tokenExpired
    else .ok c

/-- `new(jwt.Parser).ParseUnverified`: decodes the claim set without checking
the signature; fails only on malformed structure. -/
def parseUnverified : Token → Except TMError Claims
  | .malformed _ => .error .malformedToken
  | .signed c _ => .ok c

/-- `auth.TokenManager` (the kind-aware manager): signing secret and the two
configured durations.  The Redis client is passed to each operation as store
state. -/
structure TokenManager where
  secretKey : String
  accessTokenDuration : Int
  refreshTokenDuration : Int
deriving Repr, DecidableEq

/-- `TokenManager.GenerateToken`: access token with
`ExpiresAt = now + accessTokenDuration`, `IssuedAt = now`, kind `"access"`,
signed with the manager's secret. -/
def TokenManager.generateToken (m : TokenManager) (now : Int) (userID : Int)
    (email : String) : Token :=
  .signed ⟨userID, email, TokenTypeAccess, now + m.accessTokenDuration, now⟩ m.secretKey

/-- `TokenManager.GenerateRefreshToken`: refresh token with
`ExpiresAt = now + refreshTokenDuration`, kind `"refresh"`. -/
def TokenManager.generateRefreshToken (m : TokenManager) (now : Int) (userID : Int)
    (email : String) : Token :=
  .signed ⟨userID, email, TokenTypeRefresh, now + m.refreshTokenDuration, now⟩ m.secretKey

/-- `TokenManager.ValidateToken`: (1) blacklist check — key found means
revoked, a non-`redis.Nil` error is surfaced as a redis error; (2) parse and
verify signature/expiry; (3) require kind `"access"`. -/
def TokenManager.validateToken (m : TokenManager) (st : Store) (now : Int)
    (fault : Bool) (tok : Token) : Except TMError Claims :=
  match redisGet fault st now (blacklistKey tok) with
  | .found => .error .tokenRevoked
  | .errOther => .error .redisError
  | .errNil =>
    match parseWithClaims m.secretKey now tok with
    | .error e => .error e
    | .ok c =>
      if c.tokenType ≠ TokenTypeAccess then .error .typeMismatchAccess
      else .ok c

/-- `TokenManager.ValidateRefreshToken`: same pipeline with kind `"refresh"`. -/
def TokenManager.validateRefreshToken (m : TokenManager) (st : Store) (now : Int)
    (fault : Bool) (tok : Token) : Except TMError Claims :=
  match redisGet fault st now (blacklistKey tok) with
  | .found => .error .tokenRevoked
  | .errOther => .error .redisError
  | .errNil =>
    match parseWithClaims m.secretKey now tok with
    | .error e => .error e
    | .ok c =>
      if c.tokenType ≠ TokenTypeRefresh then .error .typeMismatchRefresh
      else .ok c

/-- `TokenManager.InvalidateToken`: parse unverified to read `ExpiresAt`;
`timeRemaining := ExpiresAt - now`; if non-positive, succeed with no store
write; otherwise write `blacklist:<token> ↦ "revoked"` with TTL
`timeRemaining` (`wfault` injects a failing `Set`).  Returns the new store. -/
def invalidateToken (st : Store) (now : Int) (wfault : Bool) (tok : Token) :
    Except TMError Store :=
  match parseUnverified tok with
  | .error e => .error e
  | .ok c =>
    let timeRemaining := c.expiresAt - now
    if timeRemaining ≤ 0 then .ok st
    else if wfault then .error .redisWriteError
    else .ok (redisSet st now (blacklistKey tok) timeRemaining)

/-- Modelled from the spec: the `RefreshToken` RPC handler is absent from the
source tree (only the `RefreshTokenSuccess` response helper and the
documented rotation flow exist).  `Validate(oldRefreshToken, REFRESH)`,
surfacing any failure as the umbrella `InvalidOrExpiredToken`; on success
`Revoke(oldRefreshToken)` unconditionally, revocation failure aborting the
whole operation; then issue a new access + refresh pair bound to the same
subject claims and return it with the updated store. -/
def refreshTokenFlow (m : TokenManager) (st : Store) (now : Int)
    (rfault wfault : Bool) (oldTok : Token) :
    Except TMError (Token × Token × Store) :=
  match m.validateRefreshToken st now rfault oldTok with
  | .error _ => .error .invalidOrExpired
  | .ok c =>
    match invalidateToken st now wfault oldTok with
    | .error _ => .error .refreshRevokeFailed
    | .ok st' =>
      .ok (m.generateToken now c.userID c.email,
           m.generateRefreshToken now c.userID c.email, st')

/-- Modelled from the spec: the two-token `Logout` RPC handler is absent from
the source tree (the handler present takes a single token field; the
documented flow takes a mandatory access token and an optional refresh
token).  `Revoke(accessToken)`; if a refresh token is supplied,
`Revoke(refreshToken)` as well; either revocation failure surfaces as
`LogoutFailed`. -/
def logoutFlow (st : Store) (now : Int) (wfaultA wfaultR : Bool)
    (accessTok : Token) (refreshTok? : Option Token) : Except TMError Store :=
  match invalidateToken st now wfaultA accessTok with
  | .error _ => .error .logoutFailed
  | .ok st1 =>
    match refreshTok? with
    | none => .ok st1
    | some rt =>
      match invalidateToken st1 now wfaultR rt with
      | .error _ => .error .logoutFailed
      | .ok st2 => .ok st2

namespace Kindless

/-- The kind-less claim set of `internal/auth/jwt.go` (no `TokenType` field). -/
structure KClaims where
  userID : Int
  email : String
  expiresAt : Int
  issuedAt : Int
deriving Repr, DecidableEq

/-- The kind-less `TokenManager` of `internal/auth/jwt.go`. -/
structure TokenManager where
  secretKey : String
  accessTokenDuration : Int
  refreshTokenDuration : Int
deriving Repr, DecidableEq

/-- `jwt.go` `TokenManager.GenerateToken` (the access-token constructor): the
claim set it signs, paired with the signing key.  The source sets
`ExpiresAt: jwt.NewNumericDate(now.Add(m.refreshTokenDuration))`. -/
def TokenManager.generateToken (m : TokenManager) (now : Int) (userID : Int)
    (email : String) : KClaims × String :=
  (⟨userID, email, now + m.refreshTokenDuration, now⟩, m.secretKey)

/-- `jwt.go` `TokenManager.GenerateRefreshToken`:
`ExpiresAt = now + refreshTokenDuration`. -/
def TokenManager.generateRefreshToken (m : TokenManager) (now : Int) (userID : Int)
    (email : String) : KClaims × String :=
  (⟨userID, email, now + m.refreshTokenDuration, now⟩, m.secretKey)

end Kindless

/-- Response codes used by the `Login` handler (values as in the in-repo
response package; the handler's behaviour compared below does not depend on
the particular strings, only on which constant each branch uses). -/
def CodeSuccess : String := "000"

/-- Invalid-request response code. -/
def CodeInvalidArgument : String := "003"

/-- Internal-error response code. -/
def CodeInternal : String := "013"

/-- Unauthorized response code. -/
def CodeUnauthorized : String := "016"

/-- The credential record returned by `repo.GetByEmailWithPassword`: the
public user row plus the stored bcrypt hash. -/
structure UserWithPassword where
  id : Int
  email : String
  passwordHash : String
deriving Repr, DecidableEq

/-- Outcome of the credential-store lookup `GetByEmailWithPassword`. -/
inductive RepoLookup where
  | found (u : UserWithPassword)
  | notFound            -- repository.ErrUserNotFound
  | dbError             -- any other repository error
deriving Repr, DecidableEq

/-- The outward-facing `LoginResponse`: code, message, and (on success) the
token pair and user id. -/
structure LoginResponse where
  code : String
  message : String
  accessToken : Option Token
  refreshToken : Option Token
  userID : Option Int
deriving Repr, DecidableEq

/-- `userServiceServer.Login` of `internal/server/user_server.go`: input
validation, credential lookup (`repoRes` is the lookup's outcome), bcrypt
check (`check pw storedHash`), then token-pair issuance.  Both the
record-absent and the hash-mismatch branches build
`{Code: CodeUnauthorized, Message: "invalid email or password"}`. -/
def loginHandler (m : TokenManager) (now : Int) (check : String → String → Bool)
    (email pw : String) (repoRes : RepoLookup) : LoginResponse :=
  if email = "" then ⟨CodeInvalidArgument, "email is required", none, none, none⟩
  else if pw = "" then ⟨CodeInvalidArgument, "password is required", none, none, none⟩
  else
    match repoRes with
    | .notFound => ⟨CodeUnauthorized, "invalid email or password", none, none, none⟩
    | .dbError => ⟨CodeInternal, "failed to get user", none, none, none⟩
    | .found u =>
      if !(check pw u.passwordHash) then
        ⟨CodeUnauthorized, "invalid email or password", none, none, none⟩
      else
        ⟨CodeSuccess, "success",
         some (m.generateToken now u.id u.email),
         some (m.generateRefreshToken now u.id u.email),
         some u.id⟩

/-! ## Helper lemmas -/

lemma blacklistKey_beq_self (x : Token) :
    (blacklistKey x == blacklistKey x) = true := by
  simp

lemma blacklistKey_beq_false {x y : Token} (h : x ≠ y) :
    (blacklistKey x == blacklistKey y) = false := by
  simp [blacklistKey, beq_eq_false_iff_ne]
  intro hx
  exact absurd hx h

lemma redisLive_cons (now : Int) (key : RedisKey) (e : RedisKey × Int) (st : Store) :
    redisLive now key (e :: st) =
      ((e.1 == key && decide (now < e.2)) || redisLive now key st) := by
  rfl

lemma invalidateToken_ok_unexpired {st : Store} {t : Int} {tok : Token} {c : Claims}
    {st' : Store} (hp : parseUnverified tok = .ok c) (h0 : t < c.expiresAt)
    (h : invalidateToken st t false tok = .ok st') :
    st' = (blacklistKey tok, c.expiresAt) :: st := by
  cases tok with
  | malformed r => simp [parseUnverified] at hp
  | signed c' k =>
    simp [parseUnverified] at hp
    subst hp
    simp [invalidateToken, parseUnverified, redisSet] at h
    rw [if_neg (by omega)] at h
    exact (Except.ok.inj h).symm

lemma validateRefreshToken_ok_elim {m : TokenManager} {st : Store} {t : Int}
    {fault : Bool} {tok : Token} {c : Claims}
    (h : m.validateRefreshToken st t fault tok = .ok c) :
    fault = false ∧ redisLive t (blacklistKey tok) st = false ∧
    tok = .signed c m.secretKey ∧ t < c.expiresAt ∧
    c.tokenType = TokenTypeRefresh := by
  unfold TokenManager.validateRefreshToken redisGet at h
  by_cases hf : fault
  · simp [hf] at h
  · by_cases hl : redisLive t (blacklistKey tok) st
    · simp [hf, hl] at h
    · cases tok with
      | malformed r => simp [hf, hl, parseWithClaims] at h
      | signed c' k =>
        by_cases hk : k = m.secretKey
        · subst hk
          by_cases he : c'.expiresAt ≤ t
          · simp [hf, hl, parseWithClaims, he] at h
          · by_cases hty : c'.tokenType = TokenTypeRefresh
            · simp [hf, hl, parseWithClaims, he, hty] at h
              cases h
              exact ⟨by simpa using hf, by simpa using hl, rfl, by omega, hty⟩
            · simp [hf, hl, parseWithClaims, he, hty] at h
        · simp [hf, hl, parseWithClaims, hk] at h

lemma validateToken_revoked_of_live {m : TokenManager} {st : Store} {t : Int}
    {tok : Token} (hlive : redisLive t (blacklistKey tok) st = true) :
    m.validateToken st t false tok = .error .tokenRevoked := by
  unfold TokenManager.validateToken redisGet
  simp [hlive]

lemma validateRefreshToken_revoked_of_live {m : TokenManager} {st : Store} {t : Int}
    {tok : Token} (hlive : redisLive t (blacklistKey tok) st = true) :
    m.validateRefreshToken st t false tok = .error .tokenRevoked := by
  unfold TokenManager.validateRefreshToken redisGet
  simp [hlive]

lemma validateToken_ok_intro {m : TokenManager} {st : Store} {t : Int} {c : Claims}
    (hl : redisLive t (blacklistKey (.signed c m.secretKey)) st = false)
    (he : t < c.expiresAt) (hty : c.tokenType = TokenTypeAccess) :
    m.validateToken st t false (.signed c m.secretKey) = .ok c := by
  unfold TokenManager.validateToken redisGet
  simp [hl, parseWithClaims]
  rw [if_neg (by omega)]
  simp [hty]

lemma validateRefreshToken_ok_intro {m : TokenManager} {st : Store} {t : Int}
    {c : Claims}
    (hl : redisLive t (blacklistKey (.signed c m.secretKey)) st = false)
    (he : t < c.expiresAt) (hty : c.tokenType = TokenTypeRefresh) :
    m.validateRefreshToken st t false (.signed c m.secretKey) = .ok c := by
  unfold TokenManager.validateRefreshToken redisGet
  simp [hl, parseWithClaims]
  rw [if_neg (by omega)]
  simp [hty]

/-! ## Claim theorems -/

/-- C6: the revocation-store check runs on the exact token string before any
signature verification: for every token with a live blacklist entry — the
token is universally quantified, so in particular it may carry an invalid
signature or be structurally malformed — both validators fail with the
revoked error, independent of signature state. -/
theorem C6_revocation_check_precedes_signature (m : TokenManager) (st : Store)
    (t : Int) (tok : Token)
    (hlive : redisLive t (blacklistKey tok) st = true) :
    m.validateToken st t false tok = .error .tokenRevoked ∧
    m.validateRefreshToken st t false tok = .error .tokenRevoked :=
  ⟨validateToken_revoked_of_live hlive, validateRefreshToken_revoked_of_live hlive⟩

/-- C6 witness: a structurally malformed token with a live blacklist entry is
rejected as revoked by both validators. -/
theorem C6_witness :
    redisLive 10 (blacklistKey (.malformed "x")) [(blacklistKey (.malformed "x"), 50)] = true ∧
    ((TokenManager.mk "k" 15 100).validateToken [(blacklistKey (.malformed "x"), 50)] 10 false
        (.malformed "x") = .error .tokenRevoked ∧
     (TokenManager.mk "k" 15 100).validateRefreshToken [(blacklistKey (.malformed "x"), 50)] 10 false
        (.malformed "x") = .error .tokenRevoked) :=
  ⟨by decide,
   C6_revocation_check_precedes_signature (TokenManager.mk "k" 15 100)
     [(blacklistKey (.malformed "x"), 50)] 10 (.malformed "x") (by decide)⟩

/-- C7: fail-closed store faults.  A store read failing with anything other
than key-absent makes both validators return the internal redis error (never
claims, never "not revoked"); a store write failing during revocation of a
not-yet-expired token makes the revocation return an error, never success. -/
theorem C7_fail_closed (m : TokenManager) (st : Store) (t : Int) (tok : Token)
    (c : Claims) (hp : parseUnverified tok = .ok c) (hrem : 0 < c.expiresAt - t) :
    m.validateToken st t true tok = .error .redisError ∧
    m.validateRefreshToken st t true tok = .error .redisError ∧
    invalidateToken st t true tok = .error .redisWriteError := by
  refine ⟨?_, ?_, ?_⟩
  · unfold TokenManager.validateToken redisGet
    simp
  · unfold TokenManager.validateRefreshToken redisGet
    simp
  · cases tok with
    | malformed r => simp [parseUnverified] at hp
    | signed c' k =>
      simp [parseUnverified] at hp
      subst hp
      simp only [invalidateToken, parseUnverified]
      rw [if_neg (by omega)]
      simp

/-- C7 witness: at a concrete unexpired token, a faulty read yields the redis
error from both validators and a faulty write makes revocation fail. -/
theorem C7_witness :
    parseUnverified (.signed ⟨1, "a", "access", 50, 0⟩ "k") = .ok ⟨1, "a", "access", 50, 0⟩ ∧
    (0 : Int) < 50 - 10 ∧
    ((TokenManager.mk "k" 15 100).validateToken [] 10 true
        (.signed ⟨1, "a", "access", 50, 0⟩ "k") = .error .redisError ∧
     (TokenManager.mk "k" 15 100).validateRefreshToken [] 10 true
        (.signed ⟨1, "a", "access", 50, 0⟩ "k") = .error .redisError ∧
     invalidateToken [] 10 true (.signed ⟨1, "a", "access", 50, 0⟩ "k") =
        .error .redisWriteError) :=
  ⟨by decide, by decide,
   C7_fail_closed (TokenManager.mk "k" 15 100) [] 10
     (.signed ⟨1, "a", "access", 50, 0⟩ "k") ⟨1, "a", "access", 50, 0⟩
     (by decide) (by decide)⟩

/-- C5: revocation bookkeeping.  With `remaining = expiresAt - now` at revoke
time: if `remaining ≤ 0` the call succeeds (for any write-fault state) and
returns the store unchanged — no write; otherwise it returns the store with
exactly one new entry, keyed `blacklist:` + token string, whose expiry is the
write instant plus TTL `remaining`, and that expiry equals the token's own
`expiresAt` — the entry never outlives the token's validity. -/
theorem C5_revoke_ttl_equals_remaining (st : Store) (t : Int) (w : Bool)
    (tok : Token) (c : Claims) (hp : parseUnverified tok = .ok c) :
    (c.expiresAt - t ≤ 0 → invalidateToken st t w tok = .ok st) ∧
    (0 < c.expiresAt - t →
      invalidateToken st t false tok =
        .ok ((blacklistKey tok, t + (c.expiresAt - t)) :: st) ∧
      t + (c.expiresAt - t) = c.expiresAt) := by
  cases tok with
  | malformed r => simp [parseUnverified] at hp
  | signed c' k =>
    simp [parseUnverified] at hp
    subst hp
    constructor
    · intro h
      simp only [invalidateToken, parseUnverified]
      rw [if_pos h]
    · intro h
      constructor
      · simp only [invalidateToken, parseUnverified, redisSet]
        rw [if_neg (by omega)]
        simp
      · omega

/-- C5 witness: at a concrete token (expiry 100) revoked at instant 40, the
store gains exactly the entry with TTL 60 expiring at 100. -/
theorem C5_witness :
    parseUnverified (.signed ⟨1, "a", "refresh", 100, 0⟩ "k") =
      .ok ⟨1, "a", "refresh", 100, 0⟩ ∧
    (0 : Int) < 100 - 40 ∧
    (invalidateToken [] 40 false (.signed ⟨1, "a", "refresh", 100, 0⟩ "k") =
       .ok [(blacklistKey (.signed ⟨1, "a", "refresh", 100, 0⟩ "k"), 40 + (100 - 40))] ∧
     (40 : Int) + (100 - 40) = 100) :=
  ⟨by decide, by decide,
   (C5_revoke_ttl_equals_remaining [] 40 false
     (.signed ⟨1, "a", "refresh", 100, 0⟩ "k") ⟨1, "a", "refresh", 100, 0⟩
     (by decide)).2 (by decide)⟩

/-- C1: once revocation has succeeded for a not-yet-expired token, every
validation of that token at any later instant before the blacklist entry's
TTL elapses (the entry expires exactly at the token's `expiresAt`) fails with
the revoked error — claims are never returned. -/
theorem C1_revoked_never_validates (m : TokenManager) (st st' : Store)
    (t t' : Int) (tok : Token) (c : Claims)
    (hp : parseUnverified tok = .ok c)
    (hnotexp : t < c.expiresAt)
    (hinv : invalidateToken st t false tok = .ok st')
    (_hle : t ≤ t') (hbefore : t' < c.expiresAt) :
    m.validateToken st' t' false tok = .error .tokenRevoked ∧
    m.validateRefreshToken st' t' false tok = .error .tokenRevoked := by
  have hst : st' = (blacklistKey tok, c.expiresAt) :: st :=
    invalidateToken_ok_unexpired hp hnotexp hinv
  subst hst
  have hlive : redisLive t' (blacklistKey tok)
      ((blacklistKey tok, c.expiresAt) :: st) = true := by
    rw [redisLive_cons]
    simp [hbefore]
  exact ⟨validateToken_revoked_of_live hlive,
         validateRefreshToken_revoked_of_live hlive⟩

/-- C1 witness: a token with expiry 50 revoked at instant 10 is rejected as
revoked by both validators at instant 30. -/
theorem C1_witness :
    parseUnverified (.signed ⟨1, "a", "access", 50, 0⟩ "k") =
      .ok ⟨1, "a", "access", 50, 0⟩ ∧
    (10 : Int) < 50 ∧
    invalidateToken [] 10 false (.signed ⟨1, "a", "access", 50, 0⟩ "k") =
      .ok [(blacklistKey (.signed ⟨1, "a", "access", 50, 0⟩ "k"), 50)] ∧
    (10 : Int) ≤ 30 ∧ (30 : Int) < 50 ∧
    ((TokenManager.mk "k" 15 100).validateToken
        [(blacklistKey (.signed ⟨1, "a", "access", 50, 0⟩ "k"), 50)] 30 false
        (.signed ⟨1, "a", "access", 50, 0⟩ "k") = .error .tokenRevoked ∧
     (TokenManager.mk "k" 15 100).validateRefreshToken
        [(blacklistKey (.signed ⟨1, "a", "access", 50, 0⟩ "k"), 50)] 30 false
        (.signed ⟨1, "a", "access", 50, 0⟩ "k") = .error .tokenRevoked) :=
  ⟨by decide, by decide, by decide, by decide, by decide,
   C1_revoked_never_validates (TokenManager.mk "k" 15 100) []
     [(blacklistKey (.signed ⟨1, "a", "access", 50, 0⟩ "k"), 50)] 10 30
     (.signed ⟨1, "a", "access", 50, 0⟩ "k") ⟨1, "a", "access", 50, 0⟩
     (by decide) (by decide) (by decide) (by decide) (by decide)⟩

/-- C9: issuance/validation round-trip.  A token produced by
`GenerateToken(subjectID, subjectLabel)` that is not blacklisted, validated
with the same manager before its expiry over a healthy store, yields claims
with exactly that subject id, that label, kind `"access"`, and the issuance
timestamps. -/
theorem C9_roundtrip (m : TokenManager) (st : Store) (t0 t : Int)
    (uid : Int) (email : String)
    (hfresh : redisLive t (blacklistKey (m.generateToken t0 uid email)) st = false)
    (hexp : t < t0 + m.accessTokenDuration) :
    m.validateToken st t false (m.generateToken t0 uid email) =
      .ok ⟨uid, email, TokenTypeAccess, t0 + m.accessTokenDuration, t0⟩ :=
  validateToken_ok_intro hfresh hexp rfl

/-- C9 witness: a concrete freshly issued access token round-trips through
validation with its subject claims intact. -/
theorem C9_witness :
    redisLive 12 (blacklistKey ((TokenManager.mk "k" 15 100).generateToken 10 7 "a@b")) [] = false ∧
    (12 : Int) < 10 + 15 ∧
    (TokenManager.mk "k" 15 100).validateToken [] 12 false
        ((TokenManager.mk "k" 15 100).generateToken 10 7 "a@b") =
      .ok ⟨7, "a@b", TokenTypeAccess, 10 + 15, 10⟩ :=
  ⟨by decide, by decide,
   C9_roundtrip (TokenManager.mk "k" 15 100) [] 10 12 7 "a@b" (by decide) (by decide)⟩

/-- C3 counterexample: an expired refresh token presented to the access-token
validator fails with the expired error, not the type-mismatch error — the
claim that a kind mismatch yields `TokenTypeMismatch` regardless of expiry is
false on the code, because `jwt.ParseWithClaims` validates expiry before the
handler's kind check runs. -/
theorem C3_counterexample :
    (TokenManager.mk "k" 15 100).validateToken [] 10 false
        (.signed ⟨1, "a", TokenTypeRefresh, 5, 0⟩ "k") = .error .tokenExpired ∧
    (Except.error .tokenExpired : Except TMError Claims) ≠
      .error .typeMismatchAccess := by
  exact ⟨by decide, by decide⟩

/-- C3 amended: for a token that is not blacklisted and whose signature
verifies, a kind mismatch yields the type-mismatch error provided the token
is unexpired; an already-expired token fails with the expired error before
the kind check is reached (and, per the pipeline, an invalid signature fails
at the signature step). -/
theorem C3_type_mismatch_amended (m : TokenManager) (st : Store) (t : Int)
    (c : Claims)
    (hfresh : redisLive t (blacklistKey (.signed c m.secretKey)) st = false) :
    (t < c.expiresAt → c.tokenType ≠ TokenTypeAccess →
      m.validateToken st t false (.signed c m.secretKey) = .error .typeMismatchAccess) ∧
    (t < c.expiresAt → c.tokenType ≠ TokenTypeRefresh →
      m.validateRefreshToken st t false (.signed c m.secretKey) = .error .typeMismatchRefresh) ∧
    (c.expiresAt ≤ t →
      m.validateToken st t false (.signed c m.secretKey) = .error .tokenExpired) := by
  refine ⟨?_, ?_, ?_⟩
  · intro he hty
    unfold TokenManager.validateToken redisGet
    simp [hfresh, parseWithClaims]
    rw [if_neg (by omega)]
    simp [hty]
  · intro he hty
    unfold TokenManager.validateRefreshToken redisGet
    simp [hfresh, parseWithClaims]
    rw [if_neg (by omega)]
    simp [hty]
  · intro he
    unfold TokenManager.validateToken redisGet
    simp [hfresh, parseWithClaims]
    rw [if_pos he]

/-- C3 amended witness: an unexpired, signature-valid refresh token presented
as an access token fails with the type-mismatch error. -/
theorem C3_amended_witness :
    redisLive 10 (blacklistKey (.signed ⟨1, "a", "refresh", 50, 0⟩ "k")) [] = false ∧
    (10 : Int) < 50 ∧ "refresh" ≠ TokenTypeAccess ∧
    (TokenManager.mk "k" 15 100).validateToken [] 10 false
        (.signed ⟨1, "a", "refresh", 50, 0⟩ "k") = .error .typeMismatchAccess :=
  ⟨by decide, by decide, by decide,
   (C3_type_mismatch_amended (TokenManager.mk "k" 15 100) [] 10
     ⟨1, "a", "refresh", 50, 0⟩ (by decide)).1 (by decide) (by decide)⟩

/-- C10: in the kind-less `TokenManager` of `internal/auth/jwt.go`, the
access-token constructor sets expiry to `now + refreshTokenDuration`; for a
fixed issue instant an access token and a refresh token are identical (in
particular they carry identical expiry); and the configured access duration
is never used — two managers differing only in `accessTokenDuration` issue
the same access token. -/
theorem C10_kindless_access_uses_refresh_duration
    (m m' : Kindless.TokenManager) (now uid : Int) (email : String) :
    (m.generateToken now uid email).1.expiresAt = now + m.refreshTokenDuration ∧
    m.generateToken now uid email = m.generateRefreshToken now uid email ∧
    (m.secretKey = m'.secretKey → m.refreshTokenDuration = m'.refreshTokenDuration →
      m.generateToken now uid email = m'.generateToken now uid email) := by
  refine ⟨rfl, rfl, ?_⟩
  intro hk hd
  simp [Kindless.TokenManager.generateToken, hk, hd]

/-- C10 witness: two concrete kind-less managers sharing secret and refresh
duration but with different access durations issue identical access tokens,
whose expiry is `now + refreshTokenDuration`. -/
theorem C10_witness :
    ((Kindless.TokenManager.mk "k" 15 100).generateToken 10 7 "a@b").1.expiresAt =
        10 + 100 ∧
    (Kindless.TokenManager.mk "k" 15 100).secretKey =
        (Kindless.TokenManager.mk "k" 999 100).secretKey ∧
    (Kindless.TokenManager.mk "k" 15 100).refreshTokenDuration =
        (Kindless.TokenManager.mk "k" 999 100).refreshTokenDuration ∧
    (Kindless.TokenManager.mk "k" 15 100).generateToken 10 7 "a@b" =
        (Kindless.TokenManager.mk "k" 999 100).generateToken 10 7 "a@b" :=
  ⟨by decide, by decide, by decide,
   (C10_kindless_access_uses_refresh_duration
     (Kindless.TokenManager.mk "k" 15 100) (Kindless.TokenManager.mk "k" 999 100)
     10 7 "a@b").2.2 (by decide) (by decide)⟩

/-- C8: identifier-enumeration resistance of `Login`.  With non-empty inputs,
the run where no credential record exists and the run where the record exists
but the bcrypt check rejects the secret produce literally the same response —
same code, same message, no tokens — namely the unauthorized
"invalid email or password" response. -/
theorem C8_login_indistinguishable (m : TokenManager) (now : Int)
    (check : String → String → Bool) (email pw : String) (u : UserWithPassword)
    (he : email ≠ "") (hp : pw ≠ "") (hc : check pw u.passwordHash = false) :
    loginHandler m now check email pw .notFound =
      loginHandler m now check email pw (.found u) ∧
    loginHandler m now check email pw .notFound =
      ⟨CodeUnauthorized, "invalid email or password", none, none, none⟩ := by
  constructor
  · simp [loginHandler, he, hp, hc]
  · simp [loginHandler, he, hp]

/-- C8 witness: at concrete inputs, the record-absent run and the
hash-mismatch run of `Login` return the identical unauthorized response. -/
theorem C8_witness :
    ("a@b" : String) ≠ "" ∧ ("pw" : String) ≠ "" ∧
    (fun (_ _ : String) => false) "pw" (UserWithPassword.mk 7 "a@b" "hash").passwordHash = false ∧
    (loginHandler (TokenManager.mk "k" 15 100) 10 (fun _ _ => false) "a@b" "pw" .notFound =
       loginHandler (TokenManager.mk "k" 15 100) 10 (fun _ _ => false) "a@b" "pw"
         (.found (UserWithPassword.mk 7 "a@b" "hash")) ∧
     loginHandler (TokenManager.mk "k" 15 100) 10 (fun _ _ => false) "a@b" "pw" .notFound =
       ⟨CodeUnauthorized, "invalid email or password", none, none, none⟩) :=
  ⟨by decide, by decide, rfl,
   C8_login_indistinguishable (TokenManager.mk "k" 15 100) 10 (fun _ _ => false)
     "a@b" "pw" (UserWithPassword.mk 7 "a@b" "hash") (by decide) (by decide) rfl⟩

/-- C2: refresh rotation.  When the flow succeeds on an old refresh token
(that therefore validated as kind REFRESH), the old token was unconditionally
revoked — validating it against the resulting store fails with the revoked
error — and the returned pair is freshly issued for the same subject claims,
the new refresh token validating successfully; in the run where the
revocation write fails, the whole operation fails and no pair is returned. -/
theorem C2_refresh_rotation (m : TokenManager) (st : Store) (t : Int)
    (oldTok newA newR : Token) (st' : Store)
    (hflow : refreshTokenFlow m st t false false oldTok = .ok (newA, newR, st'))
    (hne : newR ≠ oldTok)
    (hfreshR : redisLive t (blacklistKey newR) st = false)
    (hdur : 0 < m.refreshTokenDuration) :
    m.validateRefreshToken st' t false oldTok = .error .tokenRevoked ∧
    (∃ c : Claims,
      m.validateRefreshToken st t false oldTok = .ok c ∧
      newA = m.generateToken t c.userID c.email ∧
      newR = m.generateRefreshToken t c.userID c.email ∧
      m.validateRefreshToken st' t false newR =
        .ok ⟨c.userID, c.email, TokenTypeRefresh, t + m.refreshTokenDuration, t⟩) ∧
    refreshTokenFlow m st t false true oldTok = .error .refreshRevokeFailed := by
  unfold refreshTokenFlow at hflow
  cases hval : m.validateRefreshToken st t false oldTok with
  | error e => rw [hval] at hflow; simp at hflow
  | ok c =>
    rw [hval] at hflow
    cases hinv : invalidateToken st t false oldTok with
    | error e => rw [hinv] at hflow; simp at hflow
    | ok st2 =>
      rw [hinv] at hflow
      simp only [Except.ok.injEq, Prod.mk.injEq] at hflow
      obtain ⟨hA, hR, hS⟩ := hflow
      obtain ⟨-, hlOld, hTokEq, hExp, hTy⟩ := validateRefreshToken_ok_elim hval
      have hpOld : parseUnverified oldTok = .ok c := by
        rw [hTokEq]; rfl
      have hst2 : st2 = (blacklistKey oldTok, c.expiresAt) :: st :=
        invalidateToken_ok_unexpired hpOld hExp hinv
      subst hS
      subst hst2
      have hkne : (blacklistKey oldTok == blacklistKey newR) = false :=
        blacklistKey_beq_false (fun hh => hne hh.symm)
      have hliveOld : redisLive t (blacklistKey oldTok)
          ((blacklistKey oldTok, c.expiresAt) :: st) = true := by
        rw [redisLive_cons]
        simp [hExp]
      have hliveNew : redisLive t (blacklistKey newR)
          ((blacklistKey oldTok, c.expiresAt) :: st) = false := by
        rw [redisLive_cons]
        simp [hkne, hfreshR]
      have hNewSigned : newR =
          Token.signed ⟨c.userID, c.email, TokenTypeRefresh,
            t + m.refreshTokenDuration, t⟩ m.secretKey := hR.symm
      refine ⟨validateRefreshToken_revoked_of_live hliveOld,
              ⟨c, rfl, hA.symm, hR.symm, ?_⟩, ?_⟩
      · rw [hNewSigned]
        exact validateRefreshToken_ok_intro (by rw [← hNewSigned]; exact hliveNew)
          (by show t < t + m.refreshTokenDuration; omega) rfl
      · unfold refreshTokenFlow
        have hinvFail : invalidateToken st t true oldTok = .error .redisWriteError := by
          rw [hTokEq]
          simp only [invalidateToken, parseUnverified]
          rw [if_neg (by omega)]
          simp
        rw [hval, hinvFail]

/-- C2 witness: a concrete rotation run — refreshing an unexpired refresh
token blacklists it, returns a fresh pair for the same subject, and the
write-fault run aborts. -/
theorem C2_witness :
    refreshTokenFlow (TokenManager.mk "k" 15 100) [] 10 false false
        (.signed ⟨1, "a", "refresh", 50, 0⟩ "k") =
      .ok (.signed ⟨1, "a", "access", 25, 10⟩ "k",
           .signed ⟨1, "a", "refresh", 110, 10⟩ "k",
           [(blacklistKey (.signed ⟨1, "a", "refresh", 50, 0⟩ "k"), 50)]) ∧
    (Token.signed ⟨1, "a", "refresh", 110, 10⟩ "k" ≠
      Token.signed ⟨1, "a", "refresh", 50, 0⟩ "k") ∧
    redisLive 10 (blacklistKey (.signed ⟨1, "a", "refresh", 110, 10⟩ "k")) [] = false ∧
    (0 : Int) < 100 ∧
    ((TokenManager.mk "k" 15 100).validateRefreshToken
        [(blacklistKey (.signed ⟨1, "a", "refresh", 50, 0⟩ "k"), 50)] 10 false
        (.signed ⟨1, "a", "refresh", 50, 0⟩ "k") = .error .tokenRevoked ∧
     (∃ c : Claims,
       (TokenManager.mk "k" 15 100).validateRefreshToken [] 10 false
           (.signed ⟨1, "a", "refresh", 50, 0⟩ "k") = .ok c ∧
       Token.signed ⟨1, "a", "access", 25, 10⟩ "k" =
         (TokenManager.mk "k" 15 100).generateToken 10 c.userID c.email ∧
       Token.signed ⟨1, "a", "refresh", 110, 10⟩ "k" =
         (TokenManager.mk "k" 15 100).generateRefreshToken 10 c.userID c.email ∧
       (TokenManager.mk "k" 15 100).validateRefreshToken
           [(blacklistKey (.signed ⟨1, "a", "refresh", 50, 0⟩ "k"), 50)] 10 false
           (.signed ⟨1, "a", "refresh", 110, 10⟩ "k") =
         .ok ⟨c.userID, c.email, TokenTypeRefresh, 10 + 100, 10⟩) ∧
     refreshTokenFlow (TokenManager.mk "k" 15 100) [] 10 false true
        (.signed ⟨1, "a", "refresh", 50, 0⟩ "k") = .error .refreshRevokeFailed) :=
  ⟨by decide, by decide, by decide, by decide,
   C2_refresh_rotation (TokenManager.mk "k" 15 100) [] 10
     (.signed ⟨1, "a", "refresh", 50, 0⟩ "k")
     (.signed ⟨1, "a", "access", 25, 10⟩ "k")
     (.signed ⟨1, "a", "refresh", 110, 10⟩ "k")
     [(blacklistKey (.signed ⟨1, "a", "refresh", 50, 0⟩ "k"), 50)]
     (by decide) (by decide) (by decide) (by decide)⟩

lemma invalidateToken_writes {st : Store} {t : Int} {tok : Token} {c : Claims}
    (hp : parseUnverified tok = .ok c) (h0 : t < c.expiresAt) :
    invalidateToken st t false tok = .ok ((blacklistKey tok, c.expiresAt) :: st) := by
  cases tok with
  | malformed r => simp [parseUnverified] at hp
  | signed c' k =>
    simp [parseUnverified] at hp
    subst hp
    simp only [invalidateToken, parseUnverified, redisSet]
    rw [if_neg (by omega)]
    have he : t + (c'.expiresAt - t) = c'.expiresAt := by omega
    simp [he]

lemma invalidateToken_wfault {st : Store} {t : Int} {tok : Token} {c : Claims}
    (hp : parseUnverified tok = .ok c) (h0 : t < c.expiresAt) :
    invalidateToken st t true tok = .error .redisWriteError := by
  cases tok with
  | malformed r => simp [parseUnverified] at hp
  | signed c' k =>
    simp [parseUnverified] at hp
    subst hp
    simp only [invalidateToken, parseUnverified]
    rw [if_neg (by omega)]
    simp

/-- C4: two-token logout.  Revoking the mandatory access token alone leaves a
distinct, unexpired, signature-valid refresh token still validating; logging
out with both leaves both rejected as revoked; and a failing revocation of
either token surfaces as the logout failure. -/
theorem C4_logout_two_token (m : TokenManager) (st : Store) (t : Int)
    (a r : Token) (ca cr : Claims)
    (hreq : r = .signed cr m.secretKey)
    (hpa : parseUnverified a = .ok ca) (hta : t < ca.expiresAt)
    (hne : r ≠ a) (htr : t < cr.expiresAt)
    (hkind : cr.tokenType = TokenTypeRefresh)
    (hfr : redisLive t (blacklistKey r) st = false) :
    (∃ st1, logoutFlow st t false false a none = .ok st1 ∧
       m.validateRefreshToken st1 t false r = .ok cr) ∧
    (∃ st2, logoutFlow st t false false a (some r) = .ok st2 ∧
       m.validateToken st2 t false a = .error .tokenRevoked ∧
       m.validateRefreshToken st2 t false r = .error .tokenRevoked) ∧
    logoutFlow st t true false a none = .error .logoutFailed ∧
    logoutFlow st t false true a (some r) = .error .logoutFailed := by
  have hpr : parseUnverified r = .ok cr := by rw [hreq]; rfl
  have hinvA : invalidateToken st t false a =
      .ok ((blacklistKey a, ca.expiresAt) :: st) := invalidateToken_writes hpa hta
  have hinvR : invalidateToken ((blacklistKey a, ca.expiresAt) :: st) t false r =
      .ok ((blacklistKey r, cr.expiresAt) :: (blacklistKey a, ca.expiresAt) :: st) :=
    invalidateToken_writes hpr htr
  have hkneAR : (blacklistKey a == blacklistKey r) = false :=
    blacklistKey_beq_false (fun hh => hne hh.symm)
  have hkneRA : (blacklistKey r == blacklistKey a) = false :=
    blacklistKey_beq_false hne
  have hliveR1 : redisLive t (blacklistKey r)
      ((blacklistKey a, ca.expiresAt) :: st) = false := by
    rw [redisLive_cons]
    simp [hkneAR, hfr]
  have hliveA2 : redisLive t (blacklistKey a)
      ((blacklistKey r, cr.expiresAt) :: (blacklistKey a, ca.expiresAt) :: st) = true := by
    rw [redisLive_cons, redisLive_cons]
    simp [hta]
  have hliveR2 : redisLive t (blacklistKey r)
      ((blacklistKey r, cr.expiresAt) :: (blacklistKey a, ca.expiresAt) :: st) = true := by
    rw [redisLive_cons]
    simp [htr]
  refine ⟨⟨(blacklistKey a, ca.expiresAt) :: st, ?_, ?_⟩,
          ⟨(blacklistKey r, cr.expiresAt) :: (blacklistKey a, ca.expiresAt) :: st, ?_, ?_, ?_⟩,
          ?_, ?_⟩
  · unfold logoutFlow
    rw [hinvA]
  · rw [hreq]
    exact validateRefreshToken_ok_intro (by rw [← hreq]; exact hliveR1) htr hkind
  · unfold logoutFlow
    rw [hinvA]
    simp [hinvR]
  · exact validateToken_revoked_of_live hliveA2
  · exact validateRefreshToken_revoked_of_live hliveR2
  · unfold logoutFlow
    rw [invalidateToken_wfault hpa hta]
  · unfold logoutFlow
    rw [hinvA]
    simp [invalidateToken_wfault hpr htr]

/-- C4 witness: concrete logout runs — access-only leaves the refresh token
valid, both-token leaves both revoked, and injected write faults surface as
the logout failure. -/
theorem C4_witness :
    (Token.signed ⟨1, "a", "refresh", 110, 0⟩ "k" =
      Token.signed ⟨1, "a", "refresh", 110, 0⟩ ((TokenManager.mk "k" 15 100).secretKey)) ∧
    parseUnverified (.signed ⟨1, "a", "access", 25, 0⟩ "k") = .ok ⟨1, "a", "access", 25, 0⟩ ∧
    (10 : Int) < 25 ∧
    (Token.signed ⟨1, "a", "refresh", 110, 0⟩ "k" ≠ .signed ⟨1, "a", "access", 25, 0⟩ "k") ∧
    (10 : Int) < 110 ∧
    ("refresh" : String) = TokenTypeRefresh ∧
    redisLive 10 (blacklistKey (.signed ⟨1, "a", "refresh", 110, 0⟩ "k")) [] = false ∧
    ((∃ st1, logoutFlow [] 10 false false (.signed ⟨1, "a", "access", 25, 0⟩ "k") none = .ok st1 ∧
        (TokenManager.mk "k" 15 100).validateRefreshToken st1 10 false
          (.signed ⟨1, "a", "refresh", 110, 0⟩ "k") = .ok ⟨1, "a", "refresh", 110, 0⟩) ∧
     (∃ st2, logoutFlow [] 10 false false (.signed ⟨1, "a", "access", 25, 0⟩ "k")
          (some (.signed ⟨1, "a", "refresh", 110, 0⟩ "k")) = .ok st2 ∧
        (TokenManager.mk "k" 15 100).validateToken st2 10 false
          (.signed ⟨1, "a", "access", 25, 0⟩ "k") = .error .tokenRevoked ∧
        (TokenManager.mk "k" 15 100).validateRefreshToken st2 10 false
          (.signed ⟨1, "a", "refresh", 110, 0⟩ "k") = .error .tokenRevoked) ∧
     logoutFlow [] 10 true false (.signed ⟨1, "a", "access", 25, 0⟩ "k") none =
        .error .logoutFailed ∧
     logoutFlow [] 10 false true (.signed ⟨1, "a", "access", 25, 0⟩ "k")
        (some (.signed ⟨1, "a", "refresh", 110, 0⟩ "k")) = .error .logoutFailed) :=
  ⟨by decide, by decide, by decide, by decide, by decide, by decide, by decide,
   C4_logout_two_token (TokenManager.mk "k" 15 100) [] 10
     (.signed ⟨1, "a", "access", 25, 0⟩ "k") (.signed ⟨1, "a", "refresh", 110, 0⟩ "k")
     ⟨1, "a", "access", 25, 0⟩ ⟨1, "a", "refresh", 110, 0⟩
     (by decide) (by decide) (by decide) (by decide) (by decide) (by decide) (by decide)⟩
